import Mathlib

/-!
Shallow embedding of `src/Loadtesting/locustfile.py` (a Locust load-test
script for a product-store HTTP API) and proofs about its behaviour.

Modelling conventions:
* An HTTP response is abstracted to its status code together with the set of
  top-level keys of the parsed JSON body (the script only ever tests
  `"products" in data`).
* Each `random.*` draw in the script becomes an explicit parameter of the
  corresponding Lean function: `random.random() < p` coin flips become `Bool`
  arguments, `random.randint` results become `Nat` arguments, and
  `random.choice(l)` becomes an index reduced modulo `l.length`.
* Python's `str.startswith` is modelled by `pyStartsWith` on the character
  lists underlying Lean strings.
* JSON product payloads are records of optional fields; prices are rationals.
* Each Locust task is a function from the per-user session state and the
  drawn randomness to the successor state (where the task mutates state)
  and the success/failure classification of the response, `true` meaning the
  response was classified a success and `false` a failure.
-/

/-- Python's `s.startswith(pre)`: `pre` is a prefix of `s`. -/
def pyStartsWith (s pre : String) : Bool :=
  pre.data.isPrefixOf s.data

/-- A JSON product payload as built by the script: every field optional,
mirroring which keys the Python dict literal contains. -/
structure Payload where
  id : Option String
  name : Option String
  description : Option String
  price : Option ℚ
  stock : Option Int
deriving DecidableEq, Repr

/-- An HTTP response as far as the script inspects it: the status code and
the top-level keys of the parsed JSON body. -/
structure Response where
  status : Nat
  body : List String
deriving DecidableEq, Repr

/-- Per-user session state initialised in `on_start`: the seeded product ids,
the ids of products this user created, and the id-derivation counter. -/
structure SessionState where
  product_ids : List String
  created_products : List String
  product_counter : Nat
deriving DecidableEq, Repr

/-- Randomness consumed by the `get_products` task: either the
all-products branch was drawn, or the single-product branch with its
valid/invalid coin, its `random.choice` index and its `random.randint` value. -/
inductive GetChoice where
  | all : GetChoice
  | one : Bool → Nat → Nat → GetChoice
deriving DecidableEq, Repr

/-- Randomness consumed by `create_invalid_or_duplicate_product`: either the
invalid-data branch with the scenario index and the four `random.randint`
draws evaluated while building the scenario list, or the duplicate-id branch
with its `random.choice` index. -/
inductive PostChoice where
  | invalidData : Fin 5 → Nat → Nat → Nat → Nat → PostChoice
  | duplicateId : Nat → PostChoice
deriving DecidableEq, Repr

/-- One scheduled task invocation together with the randomness it consumed. -/
inductive ActionChoice where
  | get_products : GetChoice → ActionChoice
  | create_valid_product : ActionChoice
  | create_invalid_or_duplicate_product : PostChoice → ActionChoice
deriving DecidableEq, Repr

/-- Models `random.choice(self.product_ids)` in the duplicate-id scenario, the
index reduced modulo the list length. -/
def duplicate_id (s : SessionState) (idx : Nat) : String :=
  s.product_ids.getD (idx % s.product_ids.length) ""

namespace ProductAPIUser

/-- Session start `ProductAPIUser.on_start`: seed ids `["1","2","3"]`, no created products,
counter starting at 1000. -/
def on_start : SessionState :=
  { product_ids := ["1", "2", "3"], created_products := [], product_counter := 1000 }

/-- The id derived for the next valid product: `f"test_{self.product_counter}"`. -/
def new_product_id (s : SessionState) : String :=
  "test_" ++ toString s.product_counter

/-- Task `ProductAPIUser.get_products`: classification of the GET task.
The task never mutates the session state. -/
def get_products (s : SessionState) (c : GetChoice) (r : Response) : Bool :=
  match c with
  | .all =>
      if r.status = 200 then
        if "products" ∈ r.body then true
        else false
      else false
  | .one useValid idx k =>
      let product_id :=
        if useValid then
          let pool := s.product_ids ++ s.created_products
          pool.getD (idx % pool.length) ""
        else "nonexistent_" ++ toString k
      if pyStartsWith product_id "nonexistent" then
        if r.status = 404 then true
        else false
      else
        if r.status = 200 then true
        else false

/-- The payload built by `create_valid_product` (price and stock are the
random draws). -/
def valid_product_data (s : SessionState) (price : ℚ) (stock : Int) : Payload :=
  { id := some (new_product_id s)
    name := some ("Product " ++ new_product_id s)
    description := some ("Description for product " ++ new_product_id s)
    price := some price
    stock := some stock }

/-- Task `ProductAPIUser.create_valid_product`: increments the counter, appends to
`created_products` on a 201, classifies 201 and 409 as success. -/
def create_valid_product (s : SessionState) (r : Response) : SessionState × Bool :=
  let product_id := new_product_id s
  let s1 := { s with product_counter := s.product_counter + 1 }
  if r.status = 201 then
    ({ s1 with created_products := s1.created_products ++ [product_id] }, true)
  else if r.status = 409 then
    (s1, true)
  else
    (s1, false)

/-- The five invalid payloads of `invalid_scenarios` (`k1`–`k4` are the four
`random.randint(1, 1000)` draws evaluated while building the list). -/
def invalid_scenarios (k1 k2 k3 k4 : Nat) : List Payload :=
  [ { id := none, name := none,
      description := some "Product without ID, name, or price",
      price := none, stock := some 10 },
    { id := some ("invalid_" ++ toString k1), name := some "Free Product",
      description := none, price := some 0, stock := some 5 },
    { id := some ("invalid_" ++ toString k2), name := some "Negative Price Product",
      description := none, price := some (-10.99), stock := some 5 },
    { id := some ("invalid_" ++ toString k3), name := some "Negative Stock Product",
      description := none, price := some 50.00, stock := some (-5) },
    { id := some ("invalid_" ++ toString k4), name := some "",
      description := none, price := some 100.00, stock := some 10 } ]

/-- The duplicate payload built from a seeded id. -/
def duplicate_product_data (s : SessionState) (idx : Nat) : Payload :=
  { id := some (duplicate_id s idx)
    name := some "Duplicate Product"
    description := some "This should fail with 409"
    price := some 99.99
    stock := some 10 }

/-- Task `ProductAPIUser.create_invalid_or_duplicate_product`: expects 400 on the
invalid-data branch and 409 on the duplicate-id branch; never mutates state. -/
def create_invalid_or_duplicate_product (_s : SessionState) (c : PostChoice) (r : Response) :
    Bool :=
  match c with
  | .invalidData _i _k1 _k2 _k3 _k4 =>
      if r.status = 400 then true
      else false
  | .duplicateId _idx =>
      if r.status = 409 then true
      else false

/-- One loop iteration of a `ProductAPIUser`: runs the drawn task against the
session state, returning the successor state and the classification. -/
def step (s : SessionState) (a : ActionChoice) (r : Response) : SessionState × Bool :=
  match a with
  | .get_products c => (s, get_products s c r)
  | .create_valid_product => create_valid_product s r
  | .create_invalid_or_duplicate_product c =>
      (s, create_invalid_or_duplicate_product s c r)

/-- The session state reached from `on_start` after a sequence of task
invocations with their responses. -/
def run (tr : List (ActionChoice × Response)) : SessionState :=
  tr.foldl (fun s e => (step s e.1 e.2).1) on_start

end ProductAPIUser

namespace ProductAPIFastUser

/-- Session start `ProductAPIFastUser.on_start`: same seeds, counter starting at 2000. -/
def on_start : SessionState :=
  { product_ids := ["1", "2", "3"], created_products := [], product_counter := 2000 }

/-- The id derived for the next valid product: `f"fast_test_{self.product_counter}"`. -/
def new_product_id (s : SessionState) : String :=
  "fast_test_" ++ toString s.product_counter

/-- Task `ProductAPIFastUser.get_products`: same branches as the standard user,
written with the fast class's negated failure conditions (no explicit
`success()` call; success is the default when no failure is recorded). -/
def get_products (s : SessionState) (c : GetChoice) (r : Response) : Bool :=
  match c with
  | .all =>
      if r.status = 200 then
        if "products" ∉ r.body then false
        else true
      else false
  | .one useValid idx k =>
      let product_id :=
        if useValid then
          let pool := s.product_ids ++ s.created_products
          pool.getD (idx % pool.length) ""
        else "nonexistent_" ++ toString k
      if pyStartsWith product_id "nonexistent" then
        if r.status ≠ 404 then false
        else true
      else
        if r.status ≠ 200 then false
        else true

/-- The payload built by the fast user's `create_valid_product`. -/
def valid_product_data (s : SessionState) (price : ℚ) (stock : Int) : Payload :=
  { id := some (new_product_id s)
    name := some ("Fast Product " ++ new_product_id s)
    description := some ("Description for fast product " ++ new_product_id s)
    price := some price
    stock := some stock }

/-- Task `ProductAPIFastUser.create_valid_product`: appends on 201, tolerates 409,
records a failure on anything else. -/
def create_valid_product (s : SessionState) (r : Response) : SessionState × Bool :=
  let product_id := new_product_id s
  let s1 := { s with product_counter := s.product_counter + 1 }
  if r.status = 201 then
    ({ s1 with created_products := s1.created_products ++ [product_id] }, true)
  else if r.status = 409 then
    (s1, true)
  else
    (s1, false)

/-- The fast user's five invalid payloads (ids carry the `fast_` marker). -/
def invalid_scenarios (k1 k2 k3 k4 : Nat) : List Payload :=
  [ { id := none, name := none,
      description := some "Product without ID, name, or price",
      price := none, stock := some 10 },
    { id := some ("fast_invalid_" ++ toString k1), name := some "Free Product",
      description := none, price := some 0, stock := some 5 },
    { id := some ("fast_invalid_" ++ toString k2), name := some "Negative Price Product",
      description := none, price := some (-10.99), stock := some 5 },
    { id := some ("fast_invalid_" ++ toString k3), name := some "Negative Stock Product",
      description := none, price := some 50.00, stock := some (-5) },
    { id := some ("fast_invalid_" ++ toString k4), name := some "",
      description := none, price := some 100.00, stock := some 10 } ]

/-- The fast user's duplicate payload built from a seeded id. -/
def duplicate_product_data (s : SessionState) (idx : Nat) : Payload :=
  { id := some (duplicate_id s idx)
    name := some "Fast Duplicate Product"
    description := some "This should fail with 409"
    price := some 99.99
    stock := some 10 }

/-- Task `ProductAPIFastUser.create_invalid_or_duplicate_product`: expects 400 on
invalid data and 409 on a duplicate id, written with negated conditions. -/
def create_invalid_or_duplicate_product (_s : SessionState) (c : PostChoice) (r : Response) :
    Bool :=
  match c with
  | .invalidData _i _k1 _k2 _k3 _k4 =>
      if r.status ≠ 400 then false
      else true
  | .duplicateId _idx =>
      if r.status ≠ 409 then false
      else true

/-- One loop iteration of a `ProductAPIFastUser`. -/
def step (s : SessionState) (a : ActionChoice) (r : Response) : SessionState × Bool :=
  match a with
  | .get_products c => (s, get_products s c r)
  | .create_valid_product => create_valid_product s r
  | .create_invalid_or_duplicate_product c =>
      (s, create_invalid_or_duplicate_product s c r)

/-- The session state reached from the fast user's `on_start` after a
sequence of task invocations with their responses. -/
def run (tr : List (ActionChoice × Response)) : SessionState :=
  tr.foldl (fun s e => (step s e.1 e.2).1) on_start

end ProductAPIFastUser

/-- The three tasks of a user class, for weight accounting. -/
inductive TaskName where
  | get_products : TaskName
  | create_valid_product : TaskName
  | create_invalid_or_duplicate_product : TaskName
deriving DecidableEq, Repr

/-- The `@task(w)` weights of the three tasks (identical on both classes). -/
def taskWeight : TaskName → Nat
  | .get_products => 9
  | .create_valid_product => 2
  | .create_invalid_or_duplicate_product => 1

/-- The task list in declaration order. -/
def taskList : List TaskName :=
  [.get_products, .create_valid_product, .create_invalid_or_duplicate_product]

/-- Locust expands `@task(w)` into `w` copies of the task in the user's task
list; the scheduler then picks uniformly from this weighted list. -/
def weightedTasks : List TaskName :=
  (taskList.map (fun t => List.replicate (taskWeight t) t)).flatten

/-- Total weight of the catalog. -/
def totalWeight : Nat := (taskList.map taskWeight).sum

/-- The scheduler's next-task draw: a uniform index into the weighted list,
reduced modulo its length. -/
def get_next_task (r : Nat) : TaskName :=
  weightedTasks.getD (r % weightedTasks.length) .get_products

/-- How many of the `totalWeight` equiprobable draws select task `t`. -/
def selectionCount (t : TaskName) : Nat :=
  ((List.range totalWeight).filter (fun r => get_next_task r = t)).length

/-- The relative selection probability of task `t` under a uniform draw over
the weighted task list. -/
def selectionProb (t : TaskName) : ℚ :=
  (selectionCount t : ℚ) / (totalWeight : ℚ)

/-- Session-state invariant of the standard user: the seed list is untouched
and every created id carries the `test_` marker. -/
def GoodState (s : SessionState) : Prop :=
  s.product_ids = ["1", "2", "3"] ∧
  ∀ x ∈ s.created_products, pyStartsWith x "test_" = true

/-- Session-state invariant of the fast user. -/
def GoodStateFast (s : SessionState) : Prop :=
  s.product_ids = ["1", "2", "3"] ∧
  ∀ x ∈ s.created_products, pyStartsWith x "fast_test_" = true

/-- An invalid product payload as enumerated by the spec: missing id, name or
price, a non-positive price, a negative stock, or an empty name. -/
def isInvalidPayload (p : Payload) : Bool :=
  p.id.isNone || p.name.isNone || p.price.isNone ||
  (match p.price with
   | some q => decide (q ≤ 0)
   | none => false) ||
  (match p.stock with
   | some n => decide (n < 0)
   | none => false) ||
  (p.name == some "")


/-! ### Helper lemmas -/

/-- A string extended past `pre` starts with `pre`. -/
lemma pyStartsWith_append (pre rest : String) : pyStartsWith (pre ++ rest) pre = true := by
  rw [pyStartsWith, List.isPrefixOf_iff_prefix, String.data_append]
  exact List.prefix_append _ _

lemma isPrefixOf_eq_false {l1 l2 : List Char} (h : ¬ l1 <+: l2) :
    l1.isPrefixOf l2 = false := by
  rw [← Bool.not_eq_true, List.isPrefixOf_iff_prefix]
  exact h

/-- The synthetic ids of the 404 scenario start with `"nonexistent"`. -/
lemma nonexistent_id_starts (t : String) :
    pyStartsWith ("nonexistent_" ++ t) "nonexistent" = true := by
  have h : "nonexistent_" = "nonexistent" ++ "_" := by decide
  rw [h, String.append_assoc]
  exact pyStartsWith_append _ _

/-- An id starting with `"test_"` does not start with `"nonexistent"`. -/
lemma test_not_nonexistent (x : String) (h : pyStartsWith x "test_" = true) :
    pyStartsWith x "nonexistent" = false := by
  rw [pyStartsWith, List.isPrefixOf_iff_prefix] at h
  obtain ⟨t, ht⟩ := h
  have hx : x.data = 't' :: 'e' :: 's' :: 't' :: '_' :: t := by rw [← ht]; rfl
  rw [pyStartsWith]
  apply isPrefixOf_eq_false
  rw [hx]
  intro hc
  exact absurd (List.cons_prefix_cons.mp hc).1 (by decide)

/-- An id starting with `"fast_test_"` does not start with `"nonexistent"`. -/
lemma fast_test_not_nonexistent (x : String) (h : pyStartsWith x "fast_test_" = true) :
    pyStartsWith x "nonexistent" = false := by
  rw [pyStartsWith, List.isPrefixOf_iff_prefix] at h
  obtain ⟨t, ht⟩ := h
  have hx : x.data = 'f' :: 'a' :: 's' :: 't' :: '_' :: 't' :: 'e' :: 's' :: 't' :: '_' :: t := by
    rw [← ht]; rfl
  rw [pyStartsWith]
  apply isPrefixOf_eq_false
  rw [hx]
  intro hc
  exact absurd (List.cons_prefix_cons.mp hc).1 (by decide)

/-- Indexing with a reduced index stays inside a nonempty list. -/
lemma getD_mod_mem (l : List String) (hl : l ≠ []) (i : Nat) (d : String) :
    l.getD (i % l.length) d ∈ l := by
  have hlen : 0 < l.length := List.length_pos.mpr hl
  have hlt : i % l.length < l.length := Nat.mod_lt _ hlen
  rw [List.getD_eq_get?, List.get?_eq_get hlt, Option.getD_some]
  exact List.get_mem _ _ _


lemma goodState_on_start : GoodState ProductAPIUser.on_start := by
  refine ⟨rfl, ?_⟩
  intro x hx
  simp [ProductAPIUser.on_start] at hx

lemma goodStateFast_on_start : GoodStateFast ProductAPIFastUser.on_start := by
  refine ⟨rfl, ?_⟩
  intro x hx
  simp [ProductAPIFastUser.on_start] at hx

lemma goodState_step (s : SessionState) (a : ActionChoice) (r : Response)
    (h : GoodState s) : GoodState (ProductAPIUser.step s a r).1 := by
  rcases a with c | _ | c
  · exact h
  · show GoodState (ProductAPIUser.create_valid_product s r).1
    simp only [ProductAPIUser.create_valid_product]
    split_ifs with h1 h2
    · refine ⟨h.1, ?_⟩
      intro x hx
      simp only [List.mem_append, List.mem_singleton] at hx
      rcases hx with hx | hx
      · exact h.2 x hx
      · subst hx
        rw [ProductAPIUser.new_product_id]
        exact pyStartsWith_append _ _
    · exact ⟨h.1, h.2⟩
    · exact ⟨h.1, h.2⟩
  · exact h

lemma goodStateFast_step (s : SessionState) (a : ActionChoice) (r : Response)
    (h : GoodStateFast s) : GoodStateFast (ProductAPIFastUser.step s a r).1 := by
  rcases a with c | _ | c
  · exact h
  · show GoodStateFast (ProductAPIFastUser.create_valid_product s r).1
    simp only [ProductAPIFastUser.create_valid_product]
    split_ifs with h1 h2
    · refine ⟨h.1, ?_⟩
      intro x hx
      simp only [List.mem_append, List.mem_singleton] at hx
      rcases hx with hx | hx
      · exact h.2 x hx
      · subst hx
        rw [ProductAPIFastUser.new_product_id]
        exact pyStartsWith_append _ _
    · exact ⟨h.1, h.2⟩
    · exact ⟨h.1, h.2⟩
  · exact h

lemma goodState_foldl (tr : List (ActionChoice × Response)) (s : SessionState)
    (h : GoodState s) :
    GoodState (tr.foldl (fun s e => (ProductAPIUser.step s e.1 e.2).1) s) := by
  induction tr generalizing s with
  | nil => exact h
  | cons e tr ih => exact ih _ (goodState_step s e.1 e.2 h)

lemma goodStateFast_foldl (tr : List (ActionChoice × Response)) (s : SessionState)
    (h : GoodStateFast s) :
    GoodStateFast (tr.foldl (fun s e => (ProductAPIFastUser.step s e.1 e.2).1) s) := by
  induction tr generalizing s with
  | nil => exact h
  | cons e tr ih => exact ih _ (goodStateFast_step s e.1 e.2 h)

lemma goodState_run (tr : List (ActionChoice × Response)) :
    GoodState (ProductAPIUser.run tr) :=
  goodState_foldl tr _ goodState_on_start

lemma goodStateFast_run (tr : List (ActionChoice × Response)) :
    GoodStateFast (ProductAPIFastUser.run tr) :=
  goodStateFast_foldl tr _ goodStateFast_on_start

/-- Effect of one standard-user step on `created_products`: unchanged, or a
201 on the user's own valid create appending exactly the derived id. -/
lemma created_step_std (s : SessionState) (a : ActionChoice) (r : Response) :
    (ProductAPIUser.step s a r).1.created_products = s.created_products ∨
    (a = .create_valid_product ∧ r.status = 201 ∧
      (ProductAPIUser.step s a r).1.created_products
        = s.created_products ++ [ProductAPIUser.new_product_id s]) := by
  rcases a with c | _ | c
  · exact Or.inl rfl
  · simp only [ProductAPIUser.step, ProductAPIUser.create_valid_product]
    split_ifs with h1 h2
    · exact Or.inr ⟨trivial, h1, rfl⟩
    · exact Or.inl rfl
    · exact Or.inl rfl
  · exact Or.inl rfl

/-- Effect of one fast-user step on `created_products`. -/
lemma created_step_fast (s : SessionState) (a : ActionChoice) (r : Response) :
    (ProductAPIFastUser.step s a r).1.created_products = s.created_products ∨
    (a = .create_valid_product ∧ r.status = 201 ∧
      (ProductAPIFastUser.step s a r).1.created_products
        = s.created_products ++ [ProductAPIFastUser.new_product_id s]) := by
  rcases a with c | _ | c
  · exact Or.inl rfl
  · simp only [ProductAPIFastUser.step, ProductAPIFastUser.create_valid_product]
    split_ifs with h1 h2
    · exact Or.inr ⟨trivial, h1, rfl⟩
    · exact Or.inl rfl
    · exact Or.inl rfl
  · exact Or.inl rfl

lemma created_prefix_step_std (s : SessionState) (a : ActionChoice) (r : Response) :
    s.created_products <+: (ProductAPIUser.step s a r).1.created_products := by
  rcases created_step_std s a r with h | ⟨_, _, h⟩
  · rw [h]
  · rw [h]
    exact List.prefix_append _ _

lemma created_prefix_step_fast (s : SessionState) (a : ActionChoice) (r : Response) :
    s.created_products <+: (ProductAPIFastUser.step s a r).1.created_products := by
  rcases created_step_fast s a r with h | ⟨_, _, h⟩
  · rw [h]
  · rw [h]
    exact List.prefix_append _ _

lemma created_foldl_std (tr : List (ActionChoice × Response)) (s : SessionState) :
    s.created_products <+:
      (tr.foldl (fun s e => (ProductAPIUser.step s e.1 e.2).1) s).created_products := by
  induction tr generalizing s with
  | nil => exact List.prefix_rfl
  | cons e tr ih => exact (created_prefix_step_std s e.1 e.2).trans (ih _)

lemma created_foldl_fast (tr : List (ActionChoice × Response)) (s : SessionState) :
    s.created_products <+:
      (tr.foldl (fun s e => (ProductAPIFastUser.step s e.1 e.2).1) s).created_products := by
  induction tr generalizing s with
  | nil => exact List.prefix_rfl
  | cons e tr ih => exact (created_prefix_step_fast s e.1 e.2).trans (ih _)

lemma counter_step_std (s : SessionState) (a : ActionChoice) (r : Response) :
    s.product_counter ≤ (ProductAPIUser.step s a r).1.product_counter := by
  rcases a with c | _ | c
  · exact le_refl _
  · simp only [ProductAPIUser.step, ProductAPIUser.create_valid_product]
    split_ifs <;> exact Nat.le_succ _
  · exact le_refl _

lemma counter_step_fast (s : SessionState) (a : ActionChoice) (r : Response) :
    s.product_counter ≤ (ProductAPIFastUser.step s a r).1.product_counter := by
  rcases a with c | _ | c
  · exact le_refl _
  · simp only [ProductAPIFastUser.step, ProductAPIFastUser.create_valid_product]
    split_ifs <;> exact Nat.le_succ _
  · exact le_refl _

/-- Ids derived by the two user classes never coincide: one starts with a
`t`, the other with an `f`. -/
lemma std_fast_id_ne (s1 s2 : SessionState) :
    ProductAPIUser.new_product_id s1 ≠ ProductAPIFastUser.new_product_id s2 := by
  rw [ProductAPIUser.new_product_id, ProductAPIFastUser.new_product_id]
  intro h
  have hd := congrArg String.data h
  rw [String.data_append, String.data_append] at hd
  have h1 : "test_".data = 't' :: 'e' :: 's' :: 't' :: '_' :: [] := rfl
  have h2 : "fast_test_".data
      = 'f' :: 'a' :: 's' :: 't' :: '_' :: 't' :: 'e' :: 's' :: 't' :: '_' :: [] := rfl
  rw [h1, h2] at hd
  simp at hd

lemma counter_foldl_std (tr : List (ActionChoice × Response)) (s : SessionState) :
    s.product_counter ≤
      (tr.foldl (fun s e => (ProductAPIUser.step s e.1 e.2).1) s).product_counter := by
  induction tr generalizing s with
  | nil => exact le_refl _
  | cons e tr ih => exact (counter_step_std s e.1 e.2).trans (ih _)

lemma counter_foldl_fast (tr : List (ActionChoice × Response)) (s : SessionState) :
    s.product_counter ≤
      (tr.foldl (fun s e => (ProductAPIFastUser.step s e.1 e.2).1) s).product_counter := by
  induction tr generalizing s with
  | nil => exact le_refl _
  | cons e tr ih => exact (counter_step_fast s e.1 e.2).trans (ih _)

lemma duplicate_id_mem_seed (s : SessionState) (h : s.product_ids = ["1", "2", "3"])
    (idx : Nat) : duplicate_id s idx ∈ (["1", "2", "3"] : List String) := by
  rw [duplicate_id, h]
  exact getD_mod_mem _ (by simp) idx ""

lemma seed_member_not_test (x : String) (hx : x ∈ (["1", "2", "3"] : List String)) :
    pyStartsWith x "test_" = false := by
  fin_cases hx <;> decide

lemma seed_member_not_fast_test (x : String) (hx : x ∈ (["1", "2", "3"] : List String)) :
    pyStartsWith x "fast_test_" = false := by
  fin_cases hx <;> decide

lemma marked_not_contains (l : List String) (x mark : String)
    (hl : ∀ y ∈ l, pyStartsWith y mark = true)
    (hx : pyStartsWith x mark = false) : l.contains x = false := by
  rw [← Bool.not_eq_true]
  intro hc
  have hmem : x ∈ l := by simpa using hc
  rw [hl x hmem] at hx
  exact absurd hx (by simp)

lemma seed_member_not_nonexistent (x : String) (hx : x ∈ (["1", "2", "3"] : List String)) :
    pyStartsWith x "nonexistent" = false := by
  fin_cases hx <;> decide

lemma pool_not_nonexistent_std (s : SessionState) (hg : GoodState s) (idx : Nat) :
    pyStartsWith ((s.product_ids ++ s.created_products).getD
      (idx % (s.product_ids ++ s.created_products).length) "") "nonexistent" = false := by
  rw [hg.1]
  have hne : (["1", "2", "3"] : List String) ++ s.created_products ≠ [] := by simp
  rcases List.mem_append.mp (getD_mod_mem _ hne idx "") with h | h
  · exact seed_member_not_nonexistent _ h
  · exact test_not_nonexistent _ (hg.2 _ h)

lemma pool_not_nonexistent_fast (s : SessionState) (hg : GoodStateFast s) (idx : Nat) :
    pyStartsWith ((s.product_ids ++ s.created_products).getD
      (idx % (s.product_ids ++ s.created_products).length) "") "nonexistent" = false := by
  rw [hg.1]
  have hne : (["1", "2", "3"] : List String) ++ s.created_products ≠ [] := by simp
  rcases List.mem_append.mp (getD_mod_mem _ hne idx "") with h | h
  · exact seed_member_not_nonexistent _ h
  · exact fast_test_not_nonexistent _ (hg.2 _ h)

lemma get_products_eq (s : SessionState) (c : GetChoice) (r : Response) :
    ProductAPIFastUser.get_products s c r = ProductAPIUser.get_products s c r := by
  rcases c with _ | ⟨v, idx, k⟩ <;>
    simp only [ProductAPIUser.get_products, ProductAPIFastUser.get_products] <;>
    split_ifs <;> simp_all

lemma create_invalid_eq (s : SessionState) (c : PostChoice) (r : Response) :
    ProductAPIFastUser.create_invalid_or_duplicate_product s c r
      = ProductAPIUser.create_invalid_or_duplicate_product s c r := by
  rcases c with ⟨i, k1, k2, k3, k4⟩ | idx <;>
    simp only [ProductAPIUser.create_invalid_or_duplicate_product,
      ProductAPIFastUser.create_invalid_or_duplicate_product] <;>
    split_ifs <;> simp_all

lemma create_valid_shape_std (s : SessionState) (r : Response) :
    ProductAPIUser.create_valid_product s r
      = ({ s with
             product_counter := s.product_counter + 1
             created_products := s.created_products
               ++ (if r.status = 201 then [ProductAPIUser.new_product_id s] else []) },
         decide (r.status = 201 ∨ r.status = 409)) := by
  rw [ProductAPIUser.create_valid_product]
  split_ifs with h1 h2 <;> simp_all

lemma create_valid_shape_fast (s : SessionState) (r : Response) :
    ProductAPIFastUser.create_valid_product s r
      = ({ s with
             product_counter := s.product_counter + 1
             created_products := s.created_products
               ++ (if r.status = 201 then [ProductAPIFastUser.new_product_id s] else []) },
         decide (r.status = 201 ∨ r.status = 409)) := by
  rw [ProductAPIFastUser.create_valid_product]
  split_ifs with h1 h2 <;> simp_all

/-! ### Claim theorems -/

/-- C1: for the create-with-valid-unique-payload action of either user class,
classification yields success if and only if the response status is 201 or
409; every other status yields a failure outcome. -/
theorem spec_C1_valid_create_classification (s : SessionState) (r : Response) :
    ((ProductAPIUser.create_valid_product s r).2 = true ↔
      (r.status = 201 ∨ r.status = 409)) ∧
    ((ProductAPIFastUser.create_valid_product s r).2 = true ↔
      (r.status = 201 ∨ r.status = 409)) := by
  constructor
  all_goals
    simp only [ProductAPIUser.create_valid_product, ProductAPIFastUser.create_valid_product]
    split_ifs <;> simp_all

/-- C2: for the fetch-non-existent-resource action of either user class,
classification yields success if and only if the status is 404; in
particular a 200 response is classified as a failure. -/
theorem spec_C2_nonexistent_fetch_classification (s : SessionState) (idx k : Nat)
    (r : Response) :
    (ProductAPIUser.get_products s (.one false idx k) r = true ↔ r.status = 404) ∧
    (ProductAPIFastUser.get_products s (.one false idx k) r = true ↔ r.status = 404) ∧
    ProductAPIUser.get_products s (.one false idx k) ⟨200, r.body⟩ = false ∧
    ProductAPIFastUser.get_products s (.one false idx k) ⟨200, r.body⟩ = false := by
  have hs := nonexistent_id_starts (toString k)
  refine ⟨?_, ?_, ?_, ?_⟩ <;>
    simp only [ProductAPIUser.get_products, ProductAPIFastUser.get_products,
      if_false, hs, if_true] <;>
    split_ifs <;> simp_all

/-- C3: the invalid-payload scenarios of both classes are all invalid in the
enumerated sense (missing id/name/price, price ≤ 0, stock < 0 or empty
name), and the invalid-create action of either class classifies success
exactly on status 400. -/
theorem spec_C3_invalid_create_classification (k1 k2 k3 k4 : Nat) (s : SessionState)
    (i : Fin 5) (r : Response) :
    (ProductAPIUser.invalid_scenarios k1 k2 k3 k4).all isInvalidPayload = true ∧
    (ProductAPIFastUser.invalid_scenarios k1 k2 k3 k4).all isInvalidPayload = true ∧
    (ProductAPIUser.create_invalid_or_duplicate_product s (.invalidData i k1 k2 k3 k4) r
        = true ↔ r.status = 400) ∧
    (ProductAPIFastUser.create_invalid_or_duplicate_product s (.invalidData i k1 k2 k3 k4) r
        = true ↔ r.status = 400) := by
  refine ⟨?_, ?_, ?_, ?_⟩
  · norm_num [ProductAPIUser.invalid_scenarios, isInvalidPayload]
  · norm_num [ProductAPIFastUser.invalid_scenarios, isInvalidPayload]
  all_goals
    simp only [ProductAPIUser.create_invalid_or_duplicate_product,
      ProductAPIFastUser.create_invalid_or_duplicate_product]
    split_ifs <;> simp_all

/-- C4: the duplicate-id create of either class classifies success exactly on
status 409, and the id it posts is always one of the fixed seed ids
`["1","2","3"]` and never one of the session's own created ids, in every
reachable session state. -/
theorem spec_C4_duplicate_create (tr trF : List (ActionChoice × Response))
    (idx idxF : Nat) (s : SessionState) (r : Response) :
    (ProductAPIUser.create_invalid_or_duplicate_product s (.duplicateId idx) r = true ↔
      r.status = 409) ∧
    (ProductAPIFastUser.create_invalid_or_duplicate_product s (.duplicateId idx) r = true ↔
      r.status = 409) ∧
    duplicate_id (ProductAPIUser.run tr) idx ∈ ProductAPIUser.on_start.product_ids ∧
    (ProductAPIUser.run tr).created_products.contains
      (duplicate_id (ProductAPIUser.run tr) idx) = false ∧
    duplicate_id (ProductAPIFastUser.run trF) idxF ∈ ProductAPIFastUser.on_start.product_ids ∧
    (ProductAPIFastUser.run trF).created_products.contains
      (duplicate_id (ProductAPIFastUser.run trF) idxF) = false := by
  have hg := goodState_run tr
  have hgF := goodStateFast_run trF
  refine ⟨?_, ?_, ?_, ?_, ?_, ?_⟩
  · simp only [ProductAPIUser.create_invalid_or_duplicate_product]
    split_ifs <;> simp_all
  · simp only [ProductAPIFastUser.create_invalid_or_duplicate_product]
    split_ifs <;> simp_all
  · exact duplicate_id_mem_seed _ hg.1 idx
  · exact marked_not_contains _ _ "test_" hg.2
      (seed_member_not_test _ (duplicate_id_mem_seed _ hg.1 idx))
  · exact duplicate_id_mem_seed _ hgF.1 idxF
  · exact marked_not_contains _ _ "fast_test_" hgF.2
      (seed_member_not_fast_test _ (duplicate_id_mem_seed _ hgF.1 idxF))

/-- C5 counterexample: on the fetch-all branch a 200 response whose body
lacks the `products` field is classified a failure, so success is not
equivalent to status 200 for every fetch-existing action. -/
theorem spec_C5_counterexample :
    ProductAPIUser.get_products ProductAPIUser.on_start .all ⟨200, []⟩ = false ∧
    (⟨200, []⟩ : Response).status = 200 := by
  constructor
  · decide
  · rfl

/-- C5 amended: fetching a specific existing resource classifies success iff
status 200, while the fetch-all action additionally requires the `products`
field in the body, on both user classes and in every reachable state. -/
theorem spec_C5_fetch_existing_classification (tr trF : List (ActionChoice × Response))
    (idx k : Nat) (r : Response) :
    (ProductAPIUser.get_products (ProductAPIUser.run tr) (.one true idx k) r = true ↔
      r.status = 200) ∧
    (ProductAPIFastUser.get_products (ProductAPIFastUser.run trF) (.one true idx k) r = true ↔
      r.status = 200) ∧
    (ProductAPIUser.get_products (ProductAPIUser.run tr) .all r = true ↔
      (r.status = 200 ∧ "products" ∈ r.body)) ∧
    (ProductAPIFastUser.get_products (ProductAPIFastUser.run trF) .all r = true ↔
      (r.status = 200 ∧ "products" ∈ r.body)) := by
  have h1 := pool_not_nonexistent_std _ (goodState_run tr) idx
  have h2 := pool_not_nonexistent_fast _ (goodStateFast_run trF) idx
  refine ⟨?_, ?_, ?_, ?_⟩ <;>
    simp only [ProductAPIUser.get_products, ProductAPIFastUser.get_products,
      if_true, h1, h2, if_false] <;>
    split_ifs <;> simp_all

/-- C6: for either user class, every step leaves `created_products` either
unchanged or extended by exactly the id derived for that user's own valid
create on a 201 response; along any session trace the sequence only grows. -/
theorem spec_C6_created_products_append_only :
    (∀ (s : SessionState) (a : ActionChoice) (r : Response),
      (ProductAPIUser.step s a r).1.created_products = s.created_products ∨
      (a = .create_valid_product ∧ r.status = 201 ∧
        (ProductAPIUser.step s a r).1.created_products
          = s.created_products ++ [ProductAPIUser.new_product_id s])) ∧
    (∀ (s : SessionState) (a : ActionChoice) (r : Response),
      (ProductAPIFastUser.step s a r).1.created_products = s.created_products ∨
      (a = .create_valid_product ∧ r.status = 201 ∧
        (ProductAPIFastUser.step s a r).1.created_products
          = s.created_products ++ [ProductAPIFastUser.new_product_id s])) ∧
    (∀ (tr tr' : List (ActionChoice × Response)),
      (ProductAPIUser.run tr).created_products <+:
        (ProductAPIUser.run (tr ++ tr')).created_products) ∧
    (∀ (tr tr' : List (ActionChoice × Response)),
      (ProductAPIFastUser.run tr).created_products <+:
        (ProductAPIFastUser.run (tr ++ tr')).created_products) := by
  refine ⟨created_step_std, created_step_fast, ?_, ?_⟩
  · intro tr tr'
    simp only [ProductAPIUser.run, List.foldl_append]
    exact created_foldl_std tr' _
  · intro tr tr'
    simp only [ProductAPIFastUser.run, List.foldl_append]
    exact created_foldl_fast tr' _

/-- C7: each class's counter starts at its base offset (1000 standard, 2000
fast), never decreases on any step or along any trace, and the ids the two
classes derive from their counters can never coincide. -/
theorem spec_C7_counter_monotone_and_disjoint :
    ProductAPIUser.on_start.product_counter = 1000 ∧
    ProductAPIFastUser.on_start.product_counter = 2000 ∧
    (∀ (s : SessionState) (a : ActionChoice) (r : Response),
      s.product_counter ≤ (ProductAPIUser.step s a r).1.product_counter) ∧
    (∀ (s : SessionState) (a : ActionChoice) (r : Response),
      s.product_counter ≤ (ProductAPIFastUser.step s a r).1.product_counter) ∧
    (∀ (tr tr' : List (ActionChoice × Response)),
      (ProductAPIUser.run tr).product_counter ≤
        (ProductAPIUser.run (tr ++ tr')).product_counter) ∧
    (∀ (tr tr' : List (ActionChoice × Response)),
      (ProductAPIFastUser.run tr).product_counter ≤
        (ProductAPIFastUser.run (tr ++ tr')).product_counter) ∧
    (∀ s1 s2 : SessionState,
      (ProductAPIUser.new_product_id s1 == ProductAPIFastUser.new_product_id s2) = false) := by
  refine ⟨rfl, rfl, counter_step_std, counter_step_fast, ?_, ?_, ?_⟩
  · intro tr tr'
    simp only [ProductAPIUser.run, List.foldl_append]
    exact counter_foldl_std tr' _
  · intro tr tr'
    simp only [ProductAPIFastUser.run, List.foldl_append]
    exact counter_foldl_fast tr' _
  · intro s1 s2
    exact beq_eq_false_iff_ne.mpr (std_fast_id_ne s1 s2)

/-- C8: the catalog weighs GET at 9, valid create at 2 and invalid/duplicate
create at 1 (total 12), and a uniform draw over the weighted task list
selects each task with probability weight / total: 9/12, 2/12 and 1/12. -/
theorem spec_C8_task_weights_and_selection :
    totalWeight = 12 ∧
    taskWeight .get_products = 9 ∧
    taskWeight .create_valid_product = 2 ∧
    taskWeight .create_invalid_or_duplicate_product = 1 ∧
    selectionCount .get_products = 9 ∧
    selectionCount .create_valid_product = 2 ∧
    selectionCount .create_invalid_or_duplicate_product = 1 ∧
    selectionProb .get_products = 9 / 12 ∧
    selectionProb .create_valid_product = 2 / 12 ∧
    selectionProb .create_invalid_or_duplicate_product = 1 / 12 := by
  refine ⟨by decide, rfl, rfl, rfl, by decide, by decide, by decide, ?_, ?_, ?_⟩
  · rw [selectionProb, show selectionCount .get_products = 9 from by decide,
      show totalWeight = 12 from by decide]
    norm_num
  · rw [selectionProb, show selectionCount .create_valid_product = 2 from by decide,
      show totalWeight = 12 from by decide]
    norm_num
  · rw [selectionProb,
      show selectionCount .create_invalid_or_duplicate_product = 1 from by decide,
      show totalWeight = 12 from by decide]
    norm_num

/-- C9: the two user classes classify every scenario and status identically
and mutate their created-id state identically, differing only in the id
marker (`fast_` in front of the standard ids) and the counter base offset
(2000 instead of 1000). -/
theorem spec_C9_user_class_equivalence :
    (∀ (s : SessionState) (c : GetChoice) (r : Response),
      ProductAPIFastUser.get_products s c r = ProductAPIUser.get_products s c r) ∧
    (∀ (s : SessionState) (c : PostChoice) (r : Response),
      ProductAPIFastUser.create_invalid_or_duplicate_product s c r
        = ProductAPIUser.create_invalid_or_duplicate_product s c r) ∧
    (∀ (s : SessionState) (r : Response),
      (ProductAPIFastUser.create_valid_product s r).2
        = (ProductAPIUser.create_valid_product s r).2) ∧
    (∀ (s : SessionState) (r : Response),
      ProductAPIUser.create_valid_product s r
        = ({ s with
               product_counter := s.product_counter + 1
               created_products := s.created_products
                 ++ (if r.status = 201 then [ProductAPIUser.new_product_id s] else []) },
           decide (r.status = 201 ∨ r.status = 409))) ∧
    (∀ (s : SessionState) (r : Response),
      ProductAPIFastUser.create_valid_product s r
        = ({ s with
               product_counter := s.product_counter + 1
               created_products := s.created_products
                 ++ (if r.status = 201 then [ProductAPIFastUser.new_product_id s] else []) },
           decide (r.status = 201 ∨ r.status = 409))) ∧
    ProductAPIFastUser.on_start = { ProductAPIUser.on_start with product_counter := 2000 } ∧
    (∀ s : SessionState,
      ProductAPIFastUser.new_product_id s = "fast_" ++ ProductAPIUser.new_product_id s) := by
  refine ⟨get_products_eq, create_invalid_eq, ?_, create_valid_shape_std,
    create_valid_shape_fast, rfl, ?_⟩
  · intro s r
    rw [create_valid_shape_std, create_valid_shape_fast]
  · intro s
    rw [ProductAPIFastUser.new_product_id, ProductAPIUser.new_product_id,
      show ("fast_test_" : String) = "fast_" ++ "test_" from by decide,
      String.append_assoc]

/-- C10: in every reachable standard-user state no seeded or created id
starts with `nonexistent`, so the single-product GET applies the 404
expectation exactly to the synthetic ids and the 200 expectation exactly to
seeded or created ids. -/
theorem spec_C10_nonexistent_marker_partition (tr : List (ActionChoice × Response))
    (useValid : Bool) (idx k : Nat) (r : Response) :
    ((ProductAPIUser.run tr).product_ids ++ (ProductAPIUser.run tr).created_products).any
      (fun x => pyStartsWith x "nonexistent") = false ∧
    ProductAPIUser.get_products (ProductAPIUser.run tr) (.one useValid idx k) r
      = (if useValid then decide (r.status = 200) else decide (r.status = 404)) := by
  have hg := goodState_run tr
  constructor
  · rw [List.any_eq_false]
    intro x hx
    simp only [Bool.not_eq_true]
    rcases List.mem_append.mp hx with h | h
    · exact seed_member_not_nonexistent _ (hg.1 ▸ h)
    · exact test_not_nonexistent _ (hg.2 _ h)
  · rcases useValid with _ | _
    · have hs := nonexistent_id_starts (toString k)
      simp only [ProductAPIUser.get_products, if_false, hs, if_true]
      split_ifs <;> simp_all
    · have hp := pool_not_nonexistent_std _ hg idx
      simp only [ProductAPIUser.get_products, if_true, hp, if_false]
      split_ifs <;> simp_all
